import Mathlib

/-!
Shallow embedding of triarc/bot/backend.py (class Backend) and proofs about it.

Modelling conventions:
* Handler callables are identified by natural numbers; the payload argument
  (Python `any`) is modelled as a natural number.
* A Python `set` is modelled as a `Finset Nat`.  CPython does not specify an
  iteration order for sets, so iterating a set is modelled by the predicate
  `isValidDispatchOrder`: any duplicate-free list whose elements are exactly
  the elements of the set is a possible iteration order.
* The Python `dict` `listeners` is modelled as an association list
  `List (String × Finset Nat)`; `dict.get(k, default)` and the combined
  effect of `dict.setdefault(k, set()).add(f)` are embedded as `dictGet`
  and `dictUpsert` below.
* Exceptions are modelled with `Except PyError`; `PyError` covers the three
  exception classes the embedded code paths can raise.
* `trio` scheduling for the per-scope watcher task `watch_scope` is modelled
  as a transition system on the state of one stop scope (`ScopeSt`), where a
  `poll` event is one iteration of the `while not scope.cancel_called` loop
  waking from `trio.sleep(0.2)`, and a `cancel` event is
  `scope.cancel()` being called by anyone.
-/

namespace Triarc

/-- Python exception classes raised by the embedded code paths. -/
inductive PyError where
  | typeError
  | attributeError
  | runtimeError
deriving DecidableEq

/-! ## The listener registry (EventDispatcher part of Backend) -/

/-- Registry state of a Backend: the `listeners` dict (event kind to set of
handler callables) and the `globallisteners` collection, here taken with the
set operations that `listen_all` and `receive_message` perform on it. -/
structure BackendR where
  listeners : List (String × Finset Nat)
  globallisteners : Finset Nat
deriving DecidableEq

/-- Python `d.get(k, dflt)`: look up without mutating. -/
def dictGet (d : List (String × Finset Nat)) (k : String) (dflt : Finset Nat) :
    Finset Nat :=
  match d with
  | [] => dflt
  | (k', v) :: rest => if k' = k then v else dictGet rest k dflt

/-- Replace the value at key `k` (or append the binding when absent).  This is
the combined effect on the dict of `d.setdefault(k, set())` followed by a
mutation of the returned set to `v`. -/
def dictUpsert (d : List (String × Finset Nat)) (k : String) (v : Finset Nat) :
    List (String × Finset Nat) :=
  match d with
  | [] => [(k, v)]
  | (k', v') :: rest =>
    if k' = k then (k, v) :: rest else (k', v') :: dictUpsert rest k v

/-- Whether the dict has an entry for key `k`. -/
def dictHasKey (d : List (String × Finset Nat)) (k : String) : Bool :=
  match d with
  | [] => false
  | (k', _) :: rest => if k' = k then true else dictHasKey rest k

/-- `Backend.listen(name)` applied to handler `func`:
`self.listeners.setdefault(name, set()).add(func)`. -/
def listen (b : BackendR) (name : String) (func : Nat) : BackendR :=
  { b with
    listeners :=
      dictUpsert b.listeners name (insert func (dictGet b.listeners name ∅)) }

/-- The set `lists` computed by `Backend.receive_message`:
`self.listeners.get(kind, set()) | self.globallisteners`. -/
def dispatchSet (b : BackendR) (kind : String) : Finset Nat :=
  dictGet b.listeners kind ∅ ∪ b.globallisteners

/-- `Backend.receive_message(kind, data)` as a state transformer: it computes
`lists` with `dict.get` (never `setdefault`) and iterates over it, writing
nothing into either registry.  The handlers themselves are pure in this model
(the invoked handlers are assumed not to mutate the registries). -/
def receive_message (b : BackendR) (kind : String) : Finset Nat × BackendR :=
  (dispatchSet b kind, b)

/-- A possible iteration order of the set `lists` in `receive_message`:
CPython fixes no iteration order for a `set`, so any duplicate-free
enumeration of its elements is a possible order of the `for listener in
lists` loop. -/
def isValidDispatchOrder (b : BackendR) (kind : String) (l : List Nat) : Prop :=
  l.Nodup ∧ l.toFinset = dispatchSet b kind

instance (b : BackendR) (kind : String) (l : List Nat) :
    Decidable (isValidDispatchOrder b kind l) :=
  inferInstanceAs (Decidable (_ ∧ _))

/-- The argument tuples passed to the listeners by the loop
`for listener in lists: await listener(kind, data)`, given the iteration
order `l`. -/
def invocations (l : List Nat) (kind : String) (data : Nat) :
    List (Nat × String × Nat) :=
  l.map (fun f => (f, kind, data))

/-- The dispatch loop of `receive_message` with fallible handlers: `behave f`
is the outcome of `await f(kind, data)` (`none` means the handler returned,
`some e` that it raised `e`).  Returns the listeners that were actually
invoked together with the exception that left the loop, if any: the loop body
has no try/except, so a raise leaves the loop at once. -/
def run_listeners (behave : Nat → Option PyError) :
    List Nat → List Nat × Option PyError
  | [] => ([], none)
  | f :: rest =>
    match behave f with
    | some e => ([f], some e)
    | none =>
      let r := run_listeners behave rest
      (f :: r.1, r.2)

/-- The fresh `BackendR` registry state: `listeners` is an empty dict and no
global listener is registered. -/
def defaultBackendR : BackendR := ⟨[], ∅⟩

/-- Concrete registry for the dispatch-order analysis: handler `0` registered
under kind `k` first, handler `1` registered under the same kind second. -/
def bOrder : BackendR := listen (listen defaultBackendR "k" 0) "k" 1

/-- Concrete handler behaviour: handler `0` raises RuntimeError, every other
handler returns normally. -/
def exBehave : Nat → Option PyError :=
  fun f => if f = 0 then some .runtimeError else none

/-- Concrete registry for the error-isolation analysis: handlers `0` and `1`
registered under kind `e`. -/
def bErr : BackendR := listen (listen defaultBackendR "e" 0) "e" 1

/-! ## globallisteners as actually constructed (the dict/set mismatch) -/

/-- A Python object that is either a dict or a set, enough to embed the two
operations `receive_message` and `listen_all` perform on
`self.globallisteners`. -/
inductive PyObj where
  | dict (entries : List (String × Nat))
  | pyset (elems : Finset Nat)
deriving DecidableEq

/-- Python attribute call `obj.add(x)`: defined on a `set`; a `dict` has no
`add` method, so the call raises `AttributeError`. -/
def pyAttrAdd : PyObj → Nat → Except PyError PyObj
  | PyObj.pyset s, x => .ok (PyObj.pyset (insert x s))
  | PyObj.dict _, _ => .error .attributeError

/-- Python `a | b` on these objects: set union is defined between two sets;
`set | dict` is an unsupported operand pair and raises `TypeError`. -/
def pyUnion : PyObj → PyObj → Except PyError PyObj
  | PyObj.pyset a, PyObj.pyset b => .ok (PyObj.pyset (a ∪ b))
  | _, _ => .error .typeError

/-- The value `attr.Factory(dict)` gives to `self.globallisteners` at
construction time: an empty dict. -/
def globallisteners_default : PyObj := PyObj.dict []

/-- The decorator returned by `Backend.listen_all()` applied to `func`:
it executes `self.globallisteners.add(func)`. -/
def listen_all_register (globals : PyObj) (func : Nat) : Except PyError PyObj :=
  pyAttrAdd globals func

/-- The computation of `lists` in `receive_message` at the object level:
`self.listeners.get(kind, set()) | self.globallisteners`. -/
def receive_message_lists (kindListeners globals : PyObj) :
    Except PyError PyObj :=
  pyUnion kindListeners globals

/-! ## identifier construction -/

/-- Modelled from the spec: `str(uuid.uuid4())`, an externally generated
fresh identifier string (Python standard library, outside this repository). -/
def uuid4_string : String := "fresh-uuid4"

/-- Number of parameters of the factory callable
`lambda identifier: identifier if identifier is not None else str(uuid.uuid4())`. -/
def identifier_factory_arity : Nat := 1

/-- The body of that lambda, given its one argument. -/
def identifier_factory_body (identifier : Option String) : String :=
  match identifier with
  | some s => s
  | none => uuid4_string

/-- Calling the factory callable with an argument list, with Python call
semantics: a call with the wrong number of arguments raises `TypeError`
before the body runs. -/
def call_identifier_factory (args : List (Option String)) :
    Except PyError String :=
  if args.length = identifier_factory_arity then
    .ok (identifier_factory_body (args.headD none))
  else
    .error .typeError

/-- How the attrs-generated constructor produces `self.identifier`: a supplied
value is used as is; otherwise attrs invokes the `attr.Factory` callable with
zero arguments (`takes_self` is not set on this Factory). -/
def backend_init_identifier (supplied : Option String) : Except PyError String :=
  match supplied with
  | some s => .ok s
  | none => call_identifier_factory []

/-! ## Lifecycle: stop scopes -/

/-- Lifecycle state of a Backend: the `stop_scopes` set (scopes identified by
numbers, `nextScope` being the identity of the next freshly allocated
`trio.CancelScope()`), and whether `stop_scope_watcher` holds a nursery
(`true` exactly when the truthiness test `if self.stop_scope_watcher:`
succeeds). -/
structure BackendL where
  stop_scopes : Finset Nat
  nextScope : Nat
  stop_scope_watcher : Bool
deriving DecidableEq

/-- `Backend.new_stop_scope()`: allocates a scope, adds it to
`self.stop_scopes`, and only then tests `self.stop_scope_watcher`; with a
watcher it starts `watch_scope` and returns the scope, without one it raises
RuntimeError.  Either way the mutation of `stop_scopes` has already
happened. -/
def new_stop_scope (b : BackendL) : Except PyError Nat × BackendL :=
  let scope := b.nextScope
  let b1 : BackendL :=
    { b with stop_scopes := insert scope b.stop_scopes,
             nextScope := b.nextScope + 1 }
  if b.stop_scope_watcher then
    (.ok scope, b1)
  else
    (.error .runtimeError, b1)

/-- A Backend that was never started: `stop_scope_watcher` is `None` and no
scope exists. -/
def stoppedBackend : BackendL :=
  { stop_scopes := ∅, nextScope := 0, stop_scope_watcher := false }

/-- A running Backend with a supervising watcher nursery and no scope yet. -/
def runningBackend : BackendL :=
  { stop_scopes := ∅, nextScope := 0, stop_scope_watcher := true }

/-! ## The per-scope watcher process -/

/-- Observable state of one stop scope: its `cancel_called` flag, whether it
is currently a member of `self.stop_scopes`, and whether its `watch_scope`
task is still running. -/
structure ScopeSt where
  cancel_called : Bool
  inSet : Bool
  watcherAlive : Bool
deriving DecidableEq

/-- Events affecting one stop scope. -/
inductive SEvent where
  | cancel
  | poll
deriving DecidableEq

/-- One step of the system around `watch_scope`: `cancel` sets the scope's
`cancel_called` flag; `poll` is the watcher waking from `trio.sleep(0.2)` and
re-testing `scope.cancel_called` — when the flag is set it runs
`self.stop_scopes.remove(scope)` and the task ends, otherwise it sleeps
again.  A `poll` after the task ended changes nothing. -/
def scopeStep (s : ScopeSt) : SEvent → ScopeSt
  | SEvent.cancel => { s with cancel_called := true }
  | SEvent.poll =>
    if s.watcherAlive then
      if s.cancel_called then
        { s with inSet := false, watcherAlive := false }
      else s
    else s

/-- Run a trace of events from a scope state. -/
def scopeRun (s : ScopeSt) (tr : List SEvent) : ScopeSt :=
  tr.foldl scopeStep s

/-- Number of removals from `stop_scopes` performed along a trace: the steps
whose transition takes `inSet` from true to false. -/
def removals (s : ScopeSt) : List SEvent → Nat
  | [] => 0
  | e :: tr =>
    (if s.inSet = true ∧ (scopeStep s e).inSet = false then 1 else 0) +
      removals (scopeStep s e) tr

/-- The state of a scope right after a successful `new_stop_scope()` on a
running backend: not cancelled, member of `stop_scopes`, watcher task
started. -/
def initScope : ScopeSt :=
  { cancel_called := false, inSet := true, watcherAlive := true }

/-! ## Bot-registration hooks -/

/-- A stand-in for `triarc.bot.Bot`, an external collaborator: only its
identity matters to the embedded hook. -/
structure Bot where
  name : String

/-- `Backend.pre_bot_register(bot)`: the body is `return False`. -/
def pre_bot_register (_bot : Bot) : Bool := false

/-! ## Helper lemmas about the dict model -/

theorem dictGet_dictUpsert_self (d : List (String × Finset Nat)) (k : String)
    (v dflt : Finset Nat) : dictGet (dictUpsert d k v) k dflt = v := by
  induction d with
  | nil => simp [dictUpsert, dictGet]
  | cons p rest ih =>
    obtain ⟨k', v'⟩ := p
    by_cases hk : k' = k
    · subst hk
      simp [dictUpsert, dictGet]
    · simp [dictUpsert, dictGet, hk, ih]

theorem dictUpsert_dictUpsert (d : List (String × Finset Nat)) (k : String)
    (v w : Finset Nat) :
    dictUpsert (dictUpsert d k v) k w = dictUpsert d k w := by
  induction d with
  | nil => simp [dictUpsert]
  | cons p rest ih =>
    obtain ⟨k', v'⟩ := p
    by_cases hk : k' = k
    · subst hk
      simp [dictUpsert]
    · simp [dictUpsert, hk, ih]

theorem listen_listen_self (b : BackendR) (k : String) (f : Nat) :
    listen (listen b k f) k f = listen b k f := by
  unfold listen
  simp [dictGet_dictUpsert_self, dictUpsert_dictUpsert, Finset.insert_idem]

theorem mem_dispatchSet_listen (b : BackendR) (k : String) (f : Nat) :
    f ∈ dispatchSet (listen b k f) k := by
  unfold dispatchSet listen
  simp [dictGet_dictUpsert_self]

theorem count_one_of_validOrder (b : BackendR) (kind : String) (l : List Nat)
    (f : Nat) (hl : isValidDispatchOrder b kind l)
    (hf : f ∈ dispatchSet b kind) : List.count f l = 1 := by
  have hm : f ∈ l := by
    rw [← List.mem_toFinset, hl.2]
    exact hf
  exact List.count_eq_one_of_mem hl.1 hm

theorem count_invocations (l : List Nat) (k : String) (d f : Nat) :
    List.count (f, k, d) (invocations l k d) = List.count f l := by
  induction l with
  | nil => rfl
  | cons a tl ih =>
    simp [invocations, List.count_cons, Prod.ext_iff] at ih ⊢
    omega

/-! ## Helper lemmas about the scope watcher -/

theorem scopeStep_good (s : ScopeSt) (e : SEvent)
    (h1 : s.watcherAlive = s.inSet)
    (h2 : s.inSet = false → s.cancel_called = true) :
    (scopeStep s e).watcherAlive = (scopeStep s e).inSet
    ∧ ((scopeStep s e).inSet = false → (scopeStep s e).cancel_called = true) := by
  cases e <;> rcases s with ⟨c, i, w⟩ <;> cases c <;> cases i <;> cases w <;>
    simp_all [scopeStep]

theorem scopeRun_cons (s : ScopeSt) (e : SEvent) (tr : List SEvent) :
    scopeRun s (e :: tr) = scopeRun (scopeStep s e) tr := rfl

theorem scopeRun_good (tr : List SEvent) (s : ScopeSt)
    (h1 : s.watcherAlive = s.inSet)
    (h2 : s.inSet = false → s.cancel_called = true) :
    (scopeRun s tr).watcherAlive = (scopeRun s tr).inSet
    ∧ ((scopeRun s tr).inSet = false → (scopeRun s tr).cancel_called = true) := by
  induction tr generalizing s with
  | nil => exact ⟨h1, h2⟩
  | cons e tr ih =>
    have h := scopeStep_good s e h1 h2
    rw [scopeRun_cons]
    exact ih (scopeStep s e) h.1 h.2

theorem scopeStep_inSet_false (s : ScopeSt) (e : SEvent) (h : s.inSet = false) :
    (scopeStep s e).inSet = false := by
  cases e <;> rcases s with ⟨c, i, w⟩ <;> cases c <;> cases w <;>
    simp_all [scopeStep]

theorem removals_le (tr : List SEvent) (s : ScopeSt) :
    removals s tr ≤ (if s.inSet = true then 1 else 0) := by
  induction tr generalizing s with
  | nil => simp [removals]
  | cons e tr ih =>
    have hs := ih (scopeStep s e)
    by_cases hi : s.inSet = true
    · by_cases hi' : (scopeStep s e).inSet = true
      · simp [removals, hi, hi'] at hs ⊢
        exact hs
      · have h0 : (scopeStep s e).inSet = false := by
          simpa using hi'
        simp [removals, hi, h0] at hs ⊢
        omega
    · have h0 : s.inSet = false := by
        simpa using hi
      have h1 : (scopeStep s e).inSet = false := scopeStep_inSet_false s e h0
      simp [removals, h0, h1] at hs ⊢
      exact hs

/-! ## The claims -/

/-- Claim C1, counterexample: with handler 0 registered under kind k before
handler 1, the list [1, 0] is nonetheless a possible iteration order of the
dispatch loop (listeners are stored in an unordered set), so a dispatch may
invoke the later-registered handler first: registration order is not an
invariant of dispatch order. -/
theorem dispatch_order_not_registration_counterexample :
    isValidDispatchOrder bOrder "k" [1, 0]
    ∧ ¬ List.indexOf 0 [1, 0] < List.indexOf 1 [1, 0] := by
  refine ⟨by decide, by decide⟩

/-- Claim C1, amended: dispatching a kind invokes every handler registered
under it exactly once per call, but in an arbitrary set-iteration order that
need not agree with registration order. -/
theorem dispatch_each_handler_once_any_order (b : BackendR) (kind : String)
    (l : List Nat) (f : Nat) (hl : isValidDispatchOrder b kind l)
    (hf : f ∈ dispatchSet b kind) : List.count f l = 1 :=
  count_one_of_validOrder b kind l f hl hf

/-- Witness for the amended C1 theorem at the concrete registry `bOrder`. -/
theorem dispatch_each_handler_once_any_order_witness :
    List.count 1 [1, 0] = 1 :=
  dispatch_each_handler_once_any_order bOrder "k" [1, 0] 1 (by decide) (by decide)

/-- Claim C2, counterexample: with handlers 0 and 1 registered under kind e
and [0, 1] a possible iteration order, handler 0 raising RuntimeError means
handler 1 is never invoked and the exception leaves `receive_message`: the
loop body has no try/except, so nothing is isolated or captured. -/
theorem dispatch_error_aborts_counterexample :
    isValidDispatchOrder bErr "e" [0, 1]
    ∧ run_listeners exBehave [0, 1] = ([0], some PyError.runtimeError)
    ∧ (1 : Nat) ∉ (run_listeners exBehave [0, 1]).1 := by
  refine ⟨by decide, by decide, by decide⟩

/-- Claim C2, amended: when a handler raises during the dispatch loop, the
handlers after it in the iteration order are not invoked, and the exception
propagates to the caller of `receive_message`. -/
theorem dispatch_error_propagates (behave : Nat → Option PyError)
    (l1 l2 : List Nat) (f : Nat) (e : PyError)
    (h1 : ∀ g ∈ l1, behave g = none) (h2 : behave f = some e) :
    run_listeners behave (l1 ++ f :: l2) = (l1 ++ [f], some e) := by
  induction l1 with
  | nil => simp [run_listeners, h2]
  | cons a rest ih =>
    have ha : behave a = none := h1 a (List.mem_cons_self a rest)
    have hrest : ∀ g ∈ rest, behave g = none := fun g hg =>
      h1 g (List.mem_cons_of_mem a hg)
    simp [run_listeners, ha, ih hrest]

/-- Witness for the amended C2 theorem: handler 1 runs, handler 0 raises,
handler 2 is skipped and the error is returned to the caller. -/
theorem dispatch_error_propagates_witness :
    run_listeners exBehave ([1] ++ 0 :: [2]) = ([1] ++ [0], some PyError.runtimeError) :=
  dispatch_error_propagates exBehave [1] [2] 0 PyError.runtimeError
    (by decide) (by decide)

/-- Claim C3 (code bug): calling `new_stop_scope` on a backend that is not
running does raise RuntimeError, but the freshly allocated scope has already
been added to `stop_scopes` before the check, so the active-scope set is NOT
unchanged: the failed call leaks scope 0 into the set. -/
theorem new_stop_scope_not_running_leaks_scope :
    (new_stop_scope stoppedBackend).1 = Except.error PyError.runtimeError
    ∧ (new_stop_scope stoppedBackend).2.stop_scopes ≠ stoppedBackend.stop_scopes
    ∧ (0 : Nat) ∈ (new_stop_scope stoppedBackend).2.stop_scopes := by
  refine ⟨rfl, by decide, by decide⟩

/-- Claim C4: along every event trace of the watcher of a scope created on a
running backend, (a) the scope is removed from `stop_scopes` at most once,
(b) whenever the scope is out of the set its `cancel_called` flag is set, so
it is never removed before being cancelled, and (c) one `poll` step of the
watcher removes the scope exactly when it is still in the set with
`cancel_called` set, so a cancelled scope is removed at the first poll after
cancellation — within one polling interval. -/
theorem stop_scope_removed_once_after_cancel (tr : List SEvent) :
    removals initScope tr ≤ 1
    ∧ ((scopeRun initScope tr).inSet || (scopeRun initScope tr).cancel_called) = true
    ∧ (scopeStep (scopeRun initScope tr) SEvent.poll).inSet
        = ((scopeRun initScope tr).inSet && !(scopeRun initScope tr).cancel_called) := by
  have hg := scopeRun_good tr initScope rfl (by simp [initScope])
  obtain ⟨hw, hc⟩ := hg
  refine ⟨by simpa [initScope] using removals_le tr initScope, ?_, ?_⟩
  · cases hi : (scopeRun initScope tr).inSet
    · simp [hc hi]
    · simp
  · rcases hs : scopeRun initScope tr with ⟨c, i, w⟩
    rw [hs] at hw hc
    simp only at hw hc
    cases c <;> cases i <;> cases w <;> simp_all [scopeStep]

/-- Claim C5 (code bug): `globallisteners` is constructed by
`attr.Factory(dict)` as a dict, but `listen_all` calls `.add` on it — a
method dicts do not have — so registering a global listener raises
AttributeError; and `receive_message` computes `set | dict images`, an
unsupported operand pair, raising TypeError.  A global listener can thus
never be registered, let alone invoked once per dispatch. -/
theorem listen_all_dict_slip :
    listen_all_register globallisteners_default 0
        = Except.error PyError.attributeError
    ∧ receive_message_lists (PyObj.pyset ∅) globallisteners_default
        = Except.error PyError.typeError :=
  ⟨rfl, rfl⟩

/-- Claim C6: registering handler f under kind k twice is idempotent — the
registry is the same as after one registration — and any possible dispatch of
kind k then invokes f exactly once with the argument pair (k, d). -/
theorem listen_idempotent_dispatch_once (b : BackendR) (k : String) (f d : Nat)
    (l : List Nat)
    (hl : isValidDispatchOrder (listen (listen b k f) k f) k l) :
    listen (listen b k f) k f = listen b k f
    ∧ List.count (f, k, d) (invocations l k d) = 1 := by
  refine ⟨listen_listen_self b k f, ?_⟩
  have hf : f ∈ dispatchSet (listen (listen b k f) k f) k := by
    rw [listen_listen_self b k f]
    exact mem_dispatchSet_listen b k f
  have hcnt : List.count f l = 1 :=
    count_one_of_validOrder (listen (listen b k f) k f) k l f hl hf
  rw [count_invocations]
  exact hcnt

/-- Witness for the C6 theorem: handler 3 registered twice under kind g,
dispatched with payload 7, invoked once. -/
theorem listen_idempotent_dispatch_once_witness :
    listen (listen defaultBackendR "g" 3) "g" 3 = listen defaultBackendR "g" 3
    ∧ List.count (3, "g", 7) (invocations [3] "g" 7) = 1 :=
  listen_idempotent_dispatch_once defaultBackendR "g" 3 7 [3] (by decide)

/-- Claim C7: calling `new_stop_scope` on a running backend (one with a
watcher nursery) returns the freshly allocated scope, and that scope is a
member of `stop_scopes` as soon as the call returns; freshness means it was
not in the set before the call. -/
theorem new_stop_scope_running_ok (b : BackendL)
    (hrun : b.stop_scope_watcher = true)
    (hfresh : ∀ s ∈ b.stop_scopes, s < b.nextScope) :
    (new_stop_scope b).1 = Except.ok b.nextScope
    ∧ b.nextScope ∈ (new_stop_scope b).2.stop_scopes
    ∧ b.nextScope ∉ b.stop_scopes := by
  refine ⟨by simp [new_stop_scope, hrun], by simp [new_stop_scope, hrun], ?_⟩
  intro hmem
  exact absurd (hfresh _ hmem) (lt_irrefl _)

/-- Witness for the C7 theorem at a concrete running backend. -/
theorem new_stop_scope_running_ok_witness :
    (new_stop_scope runningBackend).1 = Except.ok runningBackend.nextScope
    ∧ runningBackend.nextScope ∈ (new_stop_scope runningBackend).2.stop_scopes
    ∧ runningBackend.nextScope ∉ runningBackend.stop_scopes :=
  new_stop_scope_running_ok runningBackend rfl
    (fun s hs => absurd hs (Finset.not_mem_empty s))

/-- Claim C8 (code bug): the `attr.Factory` callable for `identifier` is a
lambda of one parameter, but attrs invokes factories with zero arguments
(`takes_self` is not set), so constructing a Backend without supplying an
identifier raises TypeError instead of generating a fresh uuid4 string. -/
theorem identifier_default_factory_mismatch :
    backend_init_identifier none = Except.error PyError.typeError := rfl

/-- Claim C9: the default `pre_bot_register` hook returns False for every
bot, so by default a backend never vetoes its own registration. -/
theorem pre_bot_register_default_false (bot : Bot) :
    pre_bot_register bot = false := rfl

/-- Claim C10: `receive_message` only reads the registries — it uses
`dict.get` with a default rather than `setdefault` and performs no write — so
the kind-to-listeners dict and the global-listener collection are unchanged
by a dispatch, and no entry is created for a kind that had none. -/
theorem receive_message_preserves_registries (b : BackendR) (kind : String) :
    (receive_message b kind).2.listeners = b.listeners
    ∧ (receive_message b kind).2.globallisteners = b.globallisteners
    ∧ dictHasKey (receive_message b kind).2.listeners kind
        = dictHasKey b.listeners kind :=
  ⟨rfl, rfl, rfl⟩

end Triarc
